import Mathlib

/-!
Shallow embedding of the twitch-soundbot EventSub core (src/eventsub.rs,
src/redemption.rs) and proofs about its specified behaviour.

JSON values are modelled by the inductive `Json`, mirroring
`serde_json::Value`; numbers keep their lexeme only, since the code never
inspects numeric values.  `parseJson` models `serde_json::from_str::<Value>`:
a recursive-descent parser over the characters of the input, fuelled by the
input length (the fuel is an internal bound only; it is ample for any input
because every two fuel steps consume at least one character).
-/

/-- JSON value, mirroring `serde_json::Value`.  Objects are association
lists with unique keys (later duplicate keys replace earlier ones during
parsing, matching map-insert semantics of `serde_json`). -/
inductive Json where
  | null
  | bool (b : Bool)
  | num (lexeme : String)
  | str (s : String)
  | arr (items : List Json)
  | obj (fields : List (String × Json))

/-- Field lookup in an object's association list (unique keys). -/
def lookupField : List (String × Json) → String → Option Json
  | [], _ => none
  | (k, v) :: rest, key => if k == key then some v else lookupField rest key

/-- Models `Value::get(&str)`: field access on objects, `None` otherwise. -/
def Json.get : Json → String → Option Json
  | .obj fields, key => lookupField fields key
  | _, _ => none

/-- Models `Value::as_str`. -/
def Json.asStr : Json → Option String
  | .str s => some s
  | _ => none

/-- Models `Value::as_array`. -/
def Json.asArr : Json → Option (List Json)
  | .arr items => some items
  | _ => none

/-- Insert a field, replacing an existing binding of the same key
(map-insert semantics used while parsing objects). -/
def insertField : List (String × Json) → String → Json → List (String × Json)
  | [], k, v => [(k, v)]
  | (k0, v0) :: rest, k, v =>
    if k0 == k then (k, v) :: rest else (k0, v0) :: insertField rest k v

/-- JSON whitespace. -/
def isJsonWs (c : Char) : Bool :=
  c == ' ' || c == '\t' || c == '\n' || c == '\r'

/-- Skip leading JSON whitespace. -/
def skipWs : List Char → List Char
  | [] => []
  | c :: rest => if isJsonWs c then skipWs rest else c :: rest

/-- Value of one hexadecimal digit. -/
def hexDigitVal (c : Char) : Option Nat :=
  if '0' ≤ c ∧ c ≤ '9' then some (c.toNat - 48)
  else if 'a' ≤ c ∧ c ≤ 'f' then some (c.toNat - 97 + 10)
  else if 'A' ≤ c ∧ c ≤ 'F' then some (c.toNat - 65 + 10)
  else none

/-- Four hexadecimal digits, as used by a \u escape. -/
def parseHex4 : List Char → Option (Nat × List Char)
  | a :: b :: c :: d :: rest =>
    (hexDigitVal a).bind fun va =>
    (hexDigitVal b).bind fun vb =>
    (hexDigitVal c).bind fun vc =>
    (hexDigitVal d).bind fun vd =>
    some (va * 4096 + vb * 256 + vc * 16 + vd, rest)
  | _ => none

/-- Body of a JSON string after the opening quote: returns the decoded
characters and the input after the closing quote.  Handles the escape
sequences of RFC 8259 including surrogate pairs; rejects lone surrogates
and unescaped control characters, as `serde_json` does. -/
def parseStringBody : Nat → List Char → Option (List Char × List Char)
  | 0, _ => none
  | _ + 1, [] => none
  | fuel + 1, c :: rest =>
    if c = '\x22' then some ([], rest)
    else if c = '\x5c' then
      match rest with
      | [] => none
      | e :: rest2 =>
        if e = '\x22' then
          (parseStringBody fuel rest2).map fun p => ('\x22' :: p.1, p.2)
        else if e = '\x5c' then
          (parseStringBody fuel rest2).map fun p => ('\x5c' :: p.1, p.2)
        else if e = '/' then
          (parseStringBody fuel rest2).map fun p => ('/' :: p.1, p.2)
        else if e = 'b' then
          (parseStringBody fuel rest2).map fun p => ('\x08' :: p.1, p.2)
        else if e = 'f' then
          (parseStringBody fuel rest2).map fun p => ('\x0c' :: p.1, p.2)
        else if e = 'n' then
          (parseStringBody fuel rest2).map fun p => ('\n' :: p.1, p.2)
        else if e = 'r' then
          (parseStringBody fuel rest2).map fun p => ('\r' :: p.1, p.2)
        else if e = 't' then
          (parseStringBody fuel rest2).map fun p => ('\t' :: p.1, p.2)
        else if e = 'u' then
          (parseHex4 rest2).bind fun p =>
            if p.1 < 55296 ∨ 57344 ≤ p.1 then
              (parseStringBody fuel p.2).map fun q =>
                (Char.ofNat p.1 :: q.1, q.2)
            else if p.1 < 56320 then
              match p.2 with
              | '\x5c' :: 'u' :: r3 =>
                (parseHex4 r3).bind fun q =>
                  if 56320 ≤ q.1 ∧ q.1 < 57344 then
                    (parseStringBody fuel q.2).map fun w =>
                      (Char.ofNat (65536 + (p.1 - 55296) * 1024 +
                        (q.1 - 56320)) :: w.1, w.2)
                  else none
              | _ => none
            else none
        else none
    else if c.toNat < 32 then none
    else (parseStringBody fuel rest).map fun p => (c :: p.1, p.2)

/-- Longest leading run of decimal digits. -/
def digitSpan : List Char → List Char × List Char
  | [] => ([], [])
  | c :: rest =>
    if c.isDigit then
      let p := digitSpan rest
      (c :: p.1, p.2)
    else ([], c :: rest)

/-- Integer part of a JSON number (after an optional sign): a single `0`
or a nonzero digit followed by digits. -/
def parseIntPart : List Char → Option (List Char × List Char)
  | '0' :: rest => some (['0'], rest)
  | c :: rest =>
    if c.isDigit then
      let p := digitSpan rest
      some (c :: p.1, p.2)
    else none
  | [] => none

/-- Optional fractional part of a JSON number. -/
def parseFracPart (input : List Char) : Option (List Char × List Char) :=
  match input with
  | '.' :: rest =>
    let p := digitSpan rest
    if p.1.isEmpty then none else some ('.' :: p.1, p.2)
  | _ => some ([], input)

/-- Optional exponent part of a JSON number. -/
def parseExpPart (input : List Char) : Option (List Char × List Char) :=
  match input with
  | c :: rest =>
    if c = 'e' ∨ c = 'E' then
      match rest with
      | s :: rest2 =>
        if s = '+' ∨ s = '-' then
          let p := digitSpan rest2
          if p.1.isEmpty then none else some (c :: s :: p.1, p.2)
        else
          let p := digitSpan rest
          if p.1.isEmpty then none else some (c :: p.1, p.2)
      | [] => none
    else some ([], input)
  | [] => some ([], input)

/-- A JSON number; the lexeme is kept verbatim (the program never inspects
numeric values). -/
def parseNumber (input : List Char) : Option (String × List Char) :=
  let sp : List Char × List Char :=
    match input with
    | '-' :: r => (['-'], r)
    | _ => ([], input)
  (parseIntPart sp.2).bind fun pi =>
  (parseFracPart pi.2).bind fun pf =>
  (parseExpPart pf.2).bind fun pe =>
  some (String.mk (sp.1 ++ pi.1 ++ pf.1 ++ pe.1), pe.2)

/-- Parser mode: a whole value, the remaining elements of an array, or the
remaining members of an object (with the part already parsed). -/
inductive PMode where
  | value
  | elements (acc : List Json)
  | members (acc : List (String × Json))

/-- Recursive-descent core of the JSON parser, fuelled so that the
recursion is structural.  Returns the parsed value and the remaining
input. -/
def parseCore : Nat → PMode → List Char → Option (Json × List Char)
  | 0, _, _ => none
  | fuel + 1, .value, input =>
    match skipWs input with
    | 'n' :: 'u' :: 'l' :: 'l' :: rest => some (.null, rest)
    | 't' :: 'r' :: 'u' :: 'e' :: rest => some (.bool true, rest)
    | 'f' :: 'a' :: 'l' :: 's' :: 'e' :: rest => some (.bool false, rest)
    | '\x22' :: rest =>
      (parseStringBody fuel rest).map fun p => (.str (String.mk p.1), p.2)
    | '[' :: rest =>
      (match skipWs rest with
       | ']' :: r2 => some (.arr [], r2)
       | _ => parseCore fuel (.elements []) rest)
    | '\x7b' :: rest =>
      (match skipWs rest with
       | '\x7d' :: r2 => some (.obj [], r2)
       | _ => parseCore fuel (.members []) rest)
    | c :: rest =>
      if c = '-' ∨ c.isDigit then
        (parseNumber (c :: rest)).map fun p => (.num p.1, p.2)
      else none
    | [] => none
  | fuel + 1, .elements acc, input =>
    (parseCore fuel .value input).bind fun p =>
      match skipWs p.2 with
      | ',' :: r => parseCore fuel (.elements (acc ++ [p.1])) r
      | ']' :: r => some (.arr (acc ++ [p.1]), r)
      | _ => none
  | fuel + 1, .members acc, input =>
    match skipWs input with
    | '\x22' :: r =>
      (parseStringBody fuel r).bind fun pk =>
        match skipWs pk.2 with
        | ':' :: r2 =>
          (parseCore fuel .value r2).bind fun pv =>
            match skipWs pv.2 with
            | ',' :: r3 =>
              parseCore fuel (.members (insertField acc (String.mk pk.1) pv.1)) r3
            | '\x7d' :: r3 =>
              some (.obj (insertField acc (String.mk pk.1) pv.1), r3)
            | _ => none
        | _ => none
    | _ => none

/-- Models `serde_json::from_str::<Value>`: parse one JSON value and require
that only whitespace remains. -/
def parseJson (text : String) : Option Json :=
  match parseCore (2 * text.length + 2) PMode.value text.data with
  | some p => if (skipWs p.2).isEmpty then some p.1 else none
  | none => none

/-! ## Field-name and message constants used by the program -/

/-- Key "metadata". -/
def kMetadata : String := "metadata"

/-- Key "message_type". -/
def kMessageType : String := "message_type"

/-- Message-type value "session_welcome". -/
def kSessionWelcome : String := "session_welcome"

/-- Key "payload". -/
def kPayload : String := "payload"

/-- Key "session". -/
def kSession : String := "session"

/-- Key "id". -/
def kId : String := "id"

/-- Key "subscription". -/
def kSubscription : String := "subscription"

/-- Key "type". -/
def kType : String := "type"

/-- Key "event". -/
def kEvent : String := "event"

/-- Key "user_name". -/
def kUserName : String := "user_name"

/-- Key "reward". -/
def kReward : String := "reward"

/-- Key "title". -/
def kTitle : String := "title"

/-- Key "data" (result list of the Get Users response). -/
def kData : String := "data"

/-- Default user name used by `handle_redemption`. -/
def kUnknownUser : String := "unknown user"

/-- Default reward title used by `handle_redemption`. -/
def kUnknownReward : String := "unknown reward"

/-- The event type the service subscribes to and filters for
(eventsub.rs line 141 and line 209). -/
def subscribedEventType : String :=
  "channel.channel_points_custom_reward_redemption.add"

/-- Error-message head of `register_ws_subscription` (eventsub.rs line 166). -/
def registerFailHead : String := "Failed to register subscription: "

/-- Error-message head of `get_numeric_broadcaster_id` (eventsub.rs line 116). -/
def fetchIdFailHead : String := "Failed to fetch broadcaster id: "

/-! ## extract_session_id (eventsub.rs lines 39-57) -/

/-- Models `extract_session_id`: parse the text as JSON; if
`metadata.message_type` is the string "session_welcome" and
`payload.session` exists, return `session.get("id").and_then(as_str)`;
otherwise `None`. -/
def extract_session_id (text : String) : Option String :=
  match parseJson text with
  | some v =>
    if ((v.get kMetadata).bind fun m => m.get kMessageType).bind Json.asStr
        = some kSessionWelcome then
      match (v.get kPayload).bind fun p => p.get kSession with
      | some session => (session.get kId).bind Json.asStr
      | none => none
    else none
  | none => none

/-- The `metadata.message_type` string of a text, through `parseJson`
(the eligibility path checked by `extract_session_id`). -/
def messageTypeOf (text : String) : Option String :=
  (parseJson text).bind fun v =>
    ((v.get kMetadata).bind fun m => m.get kMessageType).bind Json.asStr

/-- The `payload.session.id` string of a text, through `parseJson`. -/
def sessionIdOf (text : String) : Option String :=
  (parseJson text).bind fun v =>
    (((v.get kPayload).bind fun p => p.get kSession).bind fun s =>
      s.get kId).bind Json.asStr

/-! ## Redemption handling (redemption.rs lines 5-26) -/

/-- The pair handed to the action handler `play_sound_for_redemption`. -/
structure RedemptionEvent where
  user_name : String
  reward_title : String
deriving DecidableEq

/-- Models `handle_redemption`: if the payload has an "event" object,
extract `reward.title` and `user_name` (string values, with the
"unknown reward" / "unknown user" defaults) and invoke the action
handler once; otherwise no handler invocation happens.  The returned
option is the handler invocation (the Rust function itself always
returns `Ok(())`). -/
def handle_redemption (payload : Json) : Option RedemptionEvent :=
  match payload.get kEvent with
  | some event =>
    some
      { user_name := ((event.get kUserName).bind Json.asStr).getD kUnknownUser
        reward_title :=
          (((event.get kReward).bind fun r => r.get kTitle).bind
            Json.asStr).getD kUnknownReward }
  | none => none

/-! ## The inbound frame stream -/

/-- A websocket message as the loop distinguishes them: text frames carry
their text; every other kind of frame only fails the `is_text` test. -/
inductive WsMessage where
  | text (s : String)
  | nonText
deriving DecidableEq

/-- One item yielded by the websocket stream: a message, or a read error
(`Err` from `read.next()`). -/
inductive StreamItem where
  | msg (m : WsMessage)
  | readErr
deriving DecidableEq

/-- How the dispatch loop can terminate abnormally. -/
inductive LoopError where
  | readError
  | parseError
deriving DecidableEq

/-- Per-frame dispatch of the loop body (eventsub.rs lines 204-217): if the
parsed frame has `payload.subscription.type` as a string equal to the
subscribed event type, `handle_redemption` is spawned on the payload; the
returned list is the sequence of action-handler invocations this frame
causes (empty or a single event). -/
def frameDispatch (event : Json) : List RedemptionEvent :=
  match event.get kPayload with
  | some payload =>
    match ((payload.get kSubscription).bind fun sub => sub.get kType).bind
        Json.asStr with
    | some t =>
      if t = subscribedEventType then (handle_redemption payload).toList
      else []
    | none => []
  | none => []

/-- Models the message loop of `run_eventsub_ws_service` (eventsub.rs lines
196-219) on a finite stream: returns the action-handler invocations in
dispatch order, and `none` on normal termination (stream end) or the
error that terminated the loop. -/
def runLoop : List StreamItem → List RedemptionEvent × Option LoopError
  | [] => ([], none)
  | .readErr :: _ => ([], some .readError)
  | .msg .nonText :: rest => runLoop rest
  | .msg (.text s) :: rest =>
    match parseJson s with
    | none => ([], some .parseError)
    | some event =>
      let p := runLoop rest
      (frameDispatch event ++ p.1, p.2)

/-- A stream item that lets the loop continue: an ok message whose text
(if any) parses as JSON. -/
def cleanItem : StreamItem → Bool
  | .readErr => false
  | .msg .nonText => true
  | .msg (.text s) => (parseJson s).isSome

/-! ## connect_eventsub_ws (eventsub.rs lines 61-98) -/

/-- Outcome of the welcome-polling loop. -/
inductive HsOutcome where
  | ok (rest : List StreamItem) (sessionId : String)
  | readError
  | timeout

/-- Models the polling `for` loop of `connect_eventsub_ws` (lines 78-92):
up to `fuel` iterations; each iteration takes the next stream item if one
exists (a read error propagates immediately; a text frame accepted by
`extract_session_id` breaks with the session id before sleeping) and
otherwise sleeps one second.  Returns the outcome together with the
number of one-second sleeps performed. -/
def connectPoll : Nat → List StreamItem → HsOutcome × Nat
  | 0, _ => (.timeout, 0)
  | n + 1, [] =>
    let p := connectPoll n []
    (p.1, p.2 + 1)
  | _ + 1, .readErr :: _ => (.readError, 0)
  | n + 1, .msg (.text s) :: rest =>
    (match extract_session_id s with
     | some sid => (.ok rest sid, 0)
     | none =>
       let p := connectPoll n rest
       (p.1, p.2 + 1))
  | n + 1, .msg .nonText :: rest =>
    let p := connectPoll n rest
    (p.1, p.2 + 1)

/-- Errors of `connect_eventsub_ws`: the connection cannot be opened
(`connect_async` fails), a read error during polling, or no qualifying
welcome frame within the window ("Failed to receive session welcome
message"). -/
inductive ConnectError where
  | connectionError
  | readError
  | handshakeTimeout
deriving DecidableEq

/-- Models `connect_eventsub_ws`: `openOk` is whether `connect_async`
succeeds, `stream` the items the socket will yield.  On success returns
the remaining stream and the session id, paired with the number of
one-second sleeps performed while polling. -/
def connect_eventsub_ws (openOk : Bool) (stream : List StreamItem) :
    Except ConnectError (List StreamItem × String) × Nat :=
  if openOk then
    match connectPoll 10 stream with
    | (.ok rest sid, k) => (.ok (rest, sid), k)
    | (.readError, k) => (.error .readError, k)
    | (.timeout, k) => (.error .handshakeTimeout, k)
  else (.error .connectionError, 0)

/-- A stream item that does not satisfy the welcome test: a message that is
not text, or a text message on which `extract_session_id` yields nothing.
A read error is not a message. -/
def nonQualifying : StreamItem → Bool
  | .readErr => false
  | .msg .nonText => true
  | .msg (.text s) => (extract_session_id s).isNone

/-! ## register_ws_subscription (eventsub.rs lines 134-168) -/

/-- Condition object of the subscription payload. -/
structure Condition where
  broadcaster_user_id : String
deriving DecidableEq

/-- Websocket transport of the subscription payload. -/
structure WsTransport where
  method : String
  session_id : String
deriving DecidableEq

/-- Subscription payload for websocket-based subscriptions. -/
structure WsSubscriptionPayload where
  event_type : String
  version : String
  condition : Condition
  transport : WsTransport
deriving DecidableEq

/-- Version string of the subscription (eventsub.rs line 143). -/
def subscriptionVersion : String := "1"

/-- Transport method of the subscription (eventsub.rs line 148). -/
def wsMethod : String := "websocket"

/-- Models `register_ws_subscription`: builds the subscription payload from
the broadcaster id and session id and posts it; `respOk` is whether the
HTTP response status is a success and `respBody` its body text.  Returns
the request payload that was sent together with the result: `Ok(())` on
success, otherwise the error string built from the response body. -/
def register_ws_subscription (broadcaster_numeric_id : String)
    (session_id : String) (respOk : Bool) (respBody : String) :
    WsSubscriptionPayload × Except String Unit :=
  let payload : WsSubscriptionPayload :=
    { event_type := subscribedEventType
      version := subscriptionVersion
      condition := { broadcaster_user_id := broadcaster_numeric_id }
      transport := { method := wsMethod, session_id := session_id } }
  if respOk then (payload, .ok ())
  else (payload, .error (registerFailHead ++ respBody))

/-! ## get_numeric_broadcaster_id (eventsub.rs lines 102-131) -/

/-- Errors of `get_numeric_broadcaster_id`: a non-success HTTP status (the
message embeds the status text), a body that fails to decode as JSON
(`res.json()` propagates its own error), or the fall-through
"No broadcaster id found". -/
inductive ResolveError where
  | upstream (msg : String)
  | bodyDecode
  | notFound
deriving DecidableEq

/-- Models `get_numeric_broadcaster_id` from the HTTP response onward:
`respOk` is whether the status is a success, `statusText` its display
text, `body` the JSON decoding of the body.  On a success status the
function looks up `data`, takes element 0 of it as an array, and returns
its `id` string; every missing step falls through to `NotFound`. -/
def get_numeric_broadcaster_id (respOk : Bool) (statusText : String)
    (body : Except Unit Json) : Except ResolveError String :=
  if respOk then
    match body with
    | .error _ => .error .bodyDecode
    | .ok json =>
      match ((json.get kData).bind Json.asArr).bind fun arr => arr.get? 0 with
      | some user =>
        match (user.get kId).bind Json.asStr with
        | some id => .ok id
        | none => .error .notFound
      | none => .error .notFound
  else .error (.upstream (fetchIdFailHead ++ statusText))

/-! ## run_eventsub_ws_service (eventsub.rs lines 173-222) -/

/-- Observable actions of the service pipeline, in the order they are
performed. -/
inductive PAction where
  | lookupBroadcaster (login : String)
  | broadcasterResolved (id : String)
  | wsConnect
  | sessionObtained (sessionId : String)
  | registerRequest (payload : WsSubscriptionPayload)
  | registerSucceeded
  | loopStarted
deriving DecidableEq

/-- Error propagated out of `run_eventsub_ws_service`. -/
inductive ServiceError where
  | resolve (e : ResolveError)
  | connect (e : ConnectError)
  | register (msg : String)
  | dispatch (e : LoopError)
deriving DecidableEq

/-- Models `run_eventsub_ws_service` as a function of its external
observations: the broadcaster login from the environment, the identity
lookup's HTTP response, whether the websocket opens and the items it
yields, and the registration call's HTTP response.  Returns the trace of
observable actions and the overall result (the handler invocations of the
message loop on success). -/
def run_eventsub_ws_service (login : String) (idRespOk : Bool)
    (idStatusText : String) (idBody : Except Unit Json) (openOk : Bool)
    (stream : List StreamItem) (regRespOk : Bool) (regRespBody : String) :
    List PAction × Except ServiceError (List RedemptionEvent) :=
  let trace0 := [PAction.lookupBroadcaster login]
  match get_numeric_broadcaster_id idRespOk idStatusText idBody with
  | .error e => (trace0, .error (.resolve e))
  | .ok numeric_broadcaster_id =>
    let trace1 := trace0 ++
      [PAction.broadcasterResolved numeric_broadcaster_id, PAction.wsConnect]
    match (connect_eventsub_ws openOk stream).1 with
    | .error e => (trace1, .error (.connect e))
    | .ok conn =>
      let reg := register_ws_subscription numeric_broadcaster_id conn.2
        regRespOk regRespBody
      let trace2 := trace1 ++
        [PAction.sessionObtained conn.2, PAction.registerRequest reg.1]
      match reg.2 with
      | .error m => (trace2, .error (.register m))
      | .ok _ =>
        let trace3 := trace2 ++ [PAction.registerSucceeded, PAction.loopStarted]
        let p := runLoop conn.1
        (trace3,
          match p.2 with
          | some e => .error (.dispatch e)
          | none => .ok p.1)

/-! ## Concrete frames and inputs used by witnesses and counterexamples -/

/-- The welcome frame of spec section 8. -/
def welcomeFrame : String :=
  "\x7b\"metadata\":\x7b\"message_type\":\"session_welcome\"\x7d,\"payload\":\x7b\"session\":\x7b\"id\":\"TestSessionID123\"\x7d\x7d\x7d"

/-- Session id carried by `welcomeFrame`. -/
def sid123 : String := "TestSessionID123"

/-- A welcome frame whose session id is the empty string. -/
def emptyIdWelcomeFrame : String :=
  "\x7b\"metadata\":\x7b\"message_type\":\"session_welcome\"\x7d,\"payload\":\x7b\"session\":\x7b\"id\":\"\"\x7d\x7d\x7d"

/-- The empty string. -/
def strEmpty : String := ""

/-- An eligible notification frame with the event fields of spec section 8. -/
def notifFrame : String :=
  "\x7b\"payload\":\x7b\"subscription\":\x7b\"type\":\"channel.channel_points_custom_reward_redemption.add\"\x7d,\"event\":\x7b\"user_name\":\"TestUser\",\"reward\":\x7b\"title\":\"CoolSound\"\x7d\x7d\x7d\x7d"

/-- User name in `notifFrame`. -/
def testUser : String := "TestUser"

/-- Reward title in `notifFrame`. -/
def coolSound : String := "CoolSound"

/-- An eligible notification frame whose payload has no "event" object. -/
def noEventFrame : String :=
  "\x7b\"payload\":\x7b\"subscription\":\x7b\"type\":\"channel.channel_points_custom_reward_redemption.add\"\x7d\x7d\x7d"

/-- A notification frame of a different subscription type. -/
def wrongTypeFrame : String :=
  "\x7b\"payload\":\x7b\"subscription\":\x7b\"type\":\"channel.follow\"\x7d,\"event\":\x7b\"user_name\":\"TestUser\",\"reward\":\x7b\"title\":\"CoolSound\"\x7d\x7d\x7d\x7d"

/-- A text frame that is not JSON. -/
def malformedFrame : String := "not json"

/-- Numeric broadcaster id used in concrete runs. -/
def numericId123 : String := "123"

/-- A successful Get Users body whose single entry has id "123". -/
def idBody123 : Json :=
  Json.obj [(kData, Json.arr [Json.obj [(kId, Json.str numericId123)]])]

/-- A successful Get Users body whose single entry has an empty id. -/
def idBodyEmptyId : Json :=
  Json.obj [(kData, Json.arr [Json.obj [(kId, Json.str strEmpty)]])]

/-- A Get Users body with an empty result list. -/
def idBodyEmptyList : Json := Json.obj [(kData, Json.arr [])]

/-- A broadcaster login used in concrete runs. -/
def loginName : String := "somestreamer"

/-- A status display text used in concrete runs. -/
def status200 : String := "200 OK"

/-- A status display text for a rejected request. -/
def status400 : String := "400 Bad Request"

/-- Response body of the rejected registration of spec section 8. -/
def invalidCondition : String := "invalid condition"

/-- The `payload.subscription.type` string of a parsed frame: the
eligibility path the dispatch loop checks. -/
def subscriptionTypeOf (event : Json) : Option String :=
  (event.get kPayload).bind fun payload =>
    ((payload.get kSubscription).bind fun sub => sub.get kType).bind Json.asStr

/-- Concrete subscription payload sent in the empty-session-id run. -/
def regPayloadEmptySid : WsSubscriptionPayload :=
  { event_type := subscribedEventType
    version := subscriptionVersion
    condition := { broadcaster_user_id := numericId123 }
    transport := { method := wsMethod, session_id := strEmpty } }

/-! ## Helper lemmas -/

/-- A frame whose `payload.subscription.type` is not the subscribed event
type dispatches nothing. -/
lemma frameDispatch_of_ne (event : Json)
    (h : subscriptionTypeOf event ≠ some subscribedEventType) :
    frameDispatch event = [] := by
  unfold frameDispatch
  unfold subscriptionTypeOf at h
  cases hp : event.get kPayload with
  | none => rfl
  | some payload =>
    simp only [hp, Option.some_bind] at h
    cases ht : ((payload.get kSubscription).bind fun sub =>
        sub.get kType).bind Json.asStr with
    | none => simp [ht]
    | some t =>
      simp only [ht, ne_eq, Option.some.injEq] at h
      simp [ht, h]

/-- The loop succeeds exactly when every stream item is clean. -/
lemma runLoop_snd_none_iff (msgs : List StreamItem) :
    (runLoop msgs).2 = none ↔ ∀ m ∈ msgs, cleanItem m = true := by
  induction msgs with
  | nil => simp [runLoop]
  | cons head rest ih =>
    cases head with
    | readErr => simp [runLoop, cleanItem]
    | msg m =>
      cases m with
      | nonText => simpa [runLoop, cleanItem] using ih
      | text s =>
        cases hp : parseJson s with
        | none => simp [runLoop, hp, cleanItem]
        | some v => simp [runLoop, hp, cleanItem, ih]

/-- A malformed text frame reached after clean items terminates the loop
with a parse error. -/
lemma runLoop_parse_error : ∀ (pre : List StreamItem) (s : String)
    (rest : List StreamItem), (∀ m ∈ pre, cleanItem m = true) →
    parseJson s = none →
    (runLoop (pre ++ StreamItem.msg (WsMessage.text s) :: rest)).2 =
      some LoopError.parseError := by
  intro pre
  induction pre with
  | nil =>
    intro s rest _ hp
    simp [runLoop, hp]
  | cons head tail ih =>
    intro s rest h hp
    have hh := h _ (List.mem_cons_self _ _)
    have htail : ∀ m ∈ tail, cleanItem m = true := fun m hm =>
      h _ (List.mem_cons_of_mem _ hm)
    cases head with
    | readErr => simp [cleanItem] at hh
    | msg m =>
      cases m with
      | nonText => simpa [runLoop] using ih s rest htail hp
      | text s0 =>
        cases hq : parseJson s0 with
        | none => simp [cleanItem, hq] at hh
        | some v => simpa [runLoop, hq] using ih s rest htail hp

/-- Removing a frame that dispatches nothing does not change the loop's
result. -/
lemma runLoop_skip_frame : ∀ (pre : List StreamItem) (s : String)
    (rest : List StreamItem) (event : Json), parseJson s = some event →
    frameDispatch event = [] →
    runLoop (pre ++ StreamItem.msg (WsMessage.text s) :: rest) =
      runLoop (pre ++ rest) := by
  intro pre
  induction pre with
  | nil =>
    intro s rest event hp hd
    simp [runLoop, hp, hd]
  | cons head tail ih =>
    intro s rest event hp hd
    cases head with
    | readErr => simp [runLoop]
    | msg m =>
      cases m with
      | nonText => simpa [runLoop] using ih s rest event hp hd
      | text s0 =>
        cases hq : parseJson s0 with
        | none => simp [runLoop, hq]
        | some v => simp [runLoop, hq, ih s rest event hp hd]

/-- Polling a stream of non-qualifying items only: every iteration sleeps
and the loop runs out of fuel with no session id. -/
lemma connectPoll_timeout : ∀ (fuel : Nat) (stream : List StreamItem),
    (∀ m ∈ stream, nonQualifying m = true) →
    connectPoll fuel stream = (HsOutcome.timeout, fuel) := by
  intro fuel
  induction fuel with
  | zero => intro stream _; rfl
  | succ n ih =>
    intro stream h
    cases stream with
    | nil => simp [connectPoll, ih [] (by simp)]
    | cons head rest =>
      have hh := h _ (List.mem_cons_self _ _)
      have hrest : ∀ m ∈ rest, nonQualifying m = true := fun m hm =>
        h _ (List.mem_cons_of_mem _ hm)
      cases head with
      | readErr => simp [nonQualifying] at hh
      | msg m =>
        cases m with
        | nonText => simp [connectPoll, ih rest hrest]
        | text s =>
          cases he : extract_session_id s with
          | some sid => simp [nonQualifying, he] at hh
          | none => simp [connectPoll, he, ih rest hrest]

/-- Polling non-qualifying items followed by a qualifying welcome frame:
each preceding item consumes one iteration (and its one-second sleep), and
the loop breaks on the welcome frame with the session id. -/
lemma connectPoll_found : ∀ (pre : List StreamItem) (fuel : Nat) (s : String)
    (sid : String) (rest : List StreamItem),
    (∀ m ∈ pre, nonQualifying m = true) → pre.length < fuel →
    extract_session_id s = some sid →
    connectPoll fuel (pre ++ StreamItem.msg (WsMessage.text s) :: rest) =
      (HsOutcome.ok rest sid, pre.length) := by
  intro pre
  induction pre with
  | nil =>
    intro fuel s sid rest _ hl he
    cases fuel with
    | zero => omega
    | succ n => simp [connectPoll, he]
  | cons head tail ih =>
    intro fuel s sid rest h hl he
    cases fuel with
    | zero => omega
    | succ n =>
      have hh := h _ (List.mem_cons_self _ _)
      have htail : ∀ m ∈ tail, nonQualifying m = true := fun m hm =>
        h _ (List.mem_cons_of_mem _ hm)
      have hl2 : tail.length < n := by
        simp only [List.length_cons] at hl
        omega
      cases head with
      | readErr => simp [nonQualifying] at hh
      | msg m =>
        cases m with
        | nonText => simp [connectPoll, ih n s sid rest htail hl2 he]
        | text s0 =>
          cases he0 : extract_session_id s0 with
          | some sid0 => simp [nonQualifying, he0] at hh
          | none => simp [connectPoll, he0, ih n s sid rest htail hl2 he]

/-! ## Claim theorems -/

/-- C4: for every JSON text whose `metadata.message_type` is
"session_welcome" and whose `payload.session.id` is a non-empty string S,
`extract_session_id` returns `some S`; in particular it yields
"TestSessionID123" on the concrete welcome frame of spec section 8. -/
theorem extract_session_id_complete :
    (∀ (t S : String), messageTypeOf t = some kSessionWelcome →
      sessionIdOf t = some S → S ≠ strEmpty → extract_session_id t = some S)
    ∧ extract_session_id welcomeFrame = some sid123 := by
  constructor
  · intro t S h1 h2 _
    unfold messageTypeOf at h1
    unfold sessionIdOf at h2
    unfold extract_session_id
    cases hp : parseJson t with
    | none => rw [hp] at h1; simp at h1
    | some v =>
      rw [hp] at h1 h2
      simp only [Option.some_bind] at h1 h2
      simp only [h1, if_pos]
      cases hs : (v.get kPayload).bind fun p => p.get kSession with
      | none => rw [hs] at h2; simp at h2
      | some session =>
        rw [hs] at h2
        simp only [Option.some_bind] at h2
        exact h2
  · rfl

/-- Witness for C4 at the section-8 welcome frame. -/
theorem extract_session_id_complete_witness :
    extract_session_id welcomeFrame = some sid123 :=
  extract_session_id_complete.1 welcomeFrame sid123 rfl rfl (by decide)

/-- C5 (amended): `extract_session_id` returns `some s` only if the text
parses as JSON, `metadata.message_type` equals "session_welcome", and
`payload.session.id` is present as a string equal to s — the code does
not require the id to be non-empty; and for any text that is malformed or
lacks that message type it returns `none`. -/
theorem extract_session_id_sound :
    (∀ (t s : String), extract_session_id t = some s →
      (parseJson t).isSome = true ∧ messageTypeOf t = some kSessionWelcome ∧
        sessionIdOf t = some s)
    ∧ (∀ t : String, messageTypeOf t ≠ some kSessionWelcome →
        extract_session_id t = none) := by
  constructor
  · intro t s h
    unfold extract_session_id at h
    cases hp : parseJson t with
    | none => rw [hp] at h; simp at h
    | some v =>
      rw [hp] at h
      by_cases hc : ((v.get kMetadata).bind fun m => m.get kMessageType).bind
          Json.asStr = some kSessionWelcome
      · simp only [hc, if_pos] at h
        refine ⟨by simp [hp], by simp [messageTypeOf, hp, hc], ?_⟩
        cases hs : (v.get kPayload).bind fun p => p.get kSession with
        | none => rw [hs] at h; simp at h
        | some session =>
          rw [hs] at h
          simp at h
          simp [sessionIdOf, hp, hs, h]
      · simp [hc] at h
  · intro t h
    unfold messageTypeOf at h
    unfold extract_session_id
    cases hp : parseJson t with
    | none => rfl
    | some v =>
      rw [hp] at h
      simp only [Option.some_bind] at h
      simp [if_neg h]

/-- Witness for C5 applied at the section-8 welcome frame. -/
theorem extract_session_id_sound_witness :
    (parseJson welcomeFrame).isSome = true ∧
      messageTypeOf welcomeFrame = some kSessionWelcome ∧
        sessionIdOf welcomeFrame = some sid123 :=
  extract_session_id_sound.1 welcomeFrame sid123 rfl

/-- Counterexample to C5 as stated: on a welcome frame whose
`payload.session.id` is the empty string, `extract_session_id` still
returns `some ""` — the claim's "present as a non-empty string" is not
checked by the code (eventsub.rs lines 49-52 convert any string id,
empty included). -/
theorem extract_session_id_accepts_empty_id :
    extract_session_id emptyIdWelcomeFrame = some strEmpty ∧
      sessionIdOf emptyIdWelcomeFrame = some strEmpty ∧ strEmpty.length = 0 :=
  ⟨rfl, rfl, rfl⟩

/-- C7: `register_ws_subscription` succeeds if and only if the HTTP
response has a success status, and on any non-success status it returns
an error carrying the response body text. -/
theorem register_subscription_status :
    ∀ (bid sid : String) (respOk : Bool) (respBody : String),
      ((register_ws_subscription bid sid respOk respBody).2 = .ok ()
        ↔ respOk = true)
      ∧ (respOk = false →
          ∃ head, (register_ws_subscription bid sid respOk respBody).2 =
            .error (head ++ respBody)) := by
  intro bid sid respOk respBody
  cases respOk with
  | true => simp [register_ws_subscription]
  | false =>
    refine ⟨by simp [register_ws_subscription], fun _ => ⟨registerFailHead, ?_⟩⟩
    simp [register_ws_subscription]

/-- Witness for C7: the rejected registration of spec section 8 (a 400
response with body "invalid condition") yields an error containing that
body text. -/
theorem register_subscription_status_witness :
    ∃ head, (register_ws_subscription numericId123 sid123 false
      invalidCondition).2 = .error (head ++ invalidCondition) :=
  (register_subscription_status numericId123 sid123 false invalidCondition).2
    rfl

/-- C8 (amended): `get_numeric_broadcaster_id` fails with an error whose
message includes the HTTP status on any non-success response, fails with
the not-found error when the result list is empty or missing, and
succeeds exactly when the decoded body has a result list whose first
entry exposes a string `id` field, which it returns — the code does not
check that the id is non-empty or numeric. -/
theorem broadcaster_id_lookup_outcomes :
    ∀ (respOk : Bool) (statusText : String) (body : Except Unit Json),
      (respOk = false →
        get_numeric_broadcaster_id respOk statusText body =
          .error (.upstream (fetchIdFailHead ++ statusText)))
      ∧ (∀ j, respOk = true → body = Except.ok j →
          (j.get kData = none ∨ (j.get kData).bind Json.asArr = some []) →
          get_numeric_broadcaster_id respOk statusText body =
            .error .notFound)
      ∧ (∀ id, get_numeric_broadcaster_id respOk statusText body = .ok id ↔
          respOk = true ∧ ∃ j u tailEntries, body = Except.ok j ∧
            (j.get kData).bind Json.asArr = some (u :: tailEntries) ∧
            (u.get kId).bind Json.asStr = some id) := by
  intro respOk statusText body
  refine ⟨?_, ?_, ?_⟩
  · intro h
    subst h
    rfl
  · intro j h hb hempty
    subst h
    subst hb
    rcases hempty with hnone | hemp
    · simp [get_numeric_broadcaster_id, hnone]
    · simp [get_numeric_broadcaster_id, hemp]
  · intro id
    constructor
    · intro h
      cases respOk with
      | false => simp [get_numeric_broadcaster_id] at h
      | true =>
        cases body with
        | error e => simp [get_numeric_broadcaster_id] at h
        | ok j =>
          refine ⟨rfl, j, ?_⟩
          unfold get_numeric_broadcaster_id at h
          simp only [if_pos] at h
          cases harr : (j.get kData).bind Json.asArr with
          | none => rw [harr] at h; simp at h
          | some arr =>
            rw [harr] at h
            cases arr with
            | nil => simp at h
            | cons u tailEntries =>
              refine ⟨u, tailEntries, rfl, rfl, ?_⟩
              simp only [Option.some_bind, List.get?] at h
              cases hid : (u.get kId).bind Json.asStr with
              | none => rw [hid] at h; simp at h
              | some s => rw [hid] at h; simp at h; rw [h]
    · rintro ⟨hok, j, u, tailEntries, hb, harr, hid⟩
      subst hok
      subst hb
      unfold get_numeric_broadcaster_id
      simp [harr, hid]

/-- Witness for C8: a success response with an empty result list yields
the not-found error, and a non-success 400 response yields the upstream
error embedding the status text. -/
theorem broadcaster_id_lookup_outcomes_witness :
    (get_numeric_broadcaster_id true status200 (Except.ok idBodyEmptyList) =
      .error .notFound)
    ∧ (get_numeric_broadcaster_id false status400 (Except.ok idBodyEmptyList) =
        .error (.upstream (fetchIdFailHead ++ status400))) :=
  ⟨(broadcaster_id_lookup_outcomes true status200
      (Except.ok idBodyEmptyList)).2.1 idBodyEmptyList rfl rfl (Or.inr rfl),
    (broadcaster_id_lookup_outcomes false status400
      (Except.ok idBodyEmptyList)).1 rfl⟩

/-- Counterexample to C8 as stated: with a success status and body
`{"data":[{"id":""}]}` the lookup succeeds and returns the empty string,
although the claim allows success only for a non-empty numeric id — the
code never validates the id string (eventsub.rs line 125). -/
theorem broadcaster_id_lookup_accepts_empty_id :
    get_numeric_broadcaster_id true status200 (Except.ok idBodyEmptyId) =
      .ok strEmpty ∧ strEmpty.length = 0 :=
  ⟨rfl, rfl⟩

/-- C6: if no qualifying welcome frame arrives within the polling window of
10 one-second intervals, `connect_eventsub_ws` fails with the
handshake-timeout error after 10 sleeps; non-qualifying frames do not
cause failure and each consumes exactly one polling interval (one sleep
per preceding frame before the welcome is accepted). -/
theorem handshake_polling_window :
    (∀ stream : List StreamItem, (∀ m ∈ stream, nonQualifying m = true) →
      connect_eventsub_ws true stream = (.error .handshakeTimeout, 10))
    ∧ (∀ (pre : List StreamItem) (s sid : String) (rest : List StreamItem),
        (∀ m ∈ pre, nonQualifying m = true) → pre.length < 10 →
        extract_session_id s = some sid →
        connect_eventsub_ws true
            (pre ++ StreamItem.msg (WsMessage.text s) :: rest) =
          (.ok (rest, sid), pre.length)) := by
  constructor
  · intro stream h
    simp [connect_eventsub_ws, connectPoll_timeout 10 stream h]
  · intro pre s sid rest h hl he
    simp [connect_eventsub_ws, connectPoll_found pre 10 s sid rest h hl he]

/-- Witness for C6: one non-qualifying frame then the section-8 welcome
frame; the handshake succeeds after one sleep. -/
theorem handshake_polling_window_witness :
    connect_eventsub_ws true ([StreamItem.msg WsMessage.nonText] ++
        StreamItem.msg (WsMessage.text welcomeFrame) :: []) =
      (.ok (([] : List StreamItem), sid123),
        ([StreamItem.msg WsMessage.nonText] : List StreamItem).length) :=
  handshake_polling_window.2 [StreamItem.msg WsMessage.nonText] welcomeFrame
    sid123 [] (by decide) (by decide) rfl

/-- C10: if the websocket stream ends during the welcome-polling window
with no qualifying frame, `connect_eventsub_ws` still performs all 10
polling iterations (10 sleeps) and fails with the handshake-timeout
error, never with the connection-establishment error. -/
theorem stream_end_reported_as_timeout :
    ∀ stream : List StreamItem, (∀ m ∈ stream, nonQualifying m = true) →
      stream.length < 10 →
      connect_eventsub_ws true stream = (.error .handshakeTimeout, 10) ∧
        ConnectError.handshakeTimeout ≠ ConnectError.connectionError := by
  intro stream h _
  refine ⟨?_, by decide⟩
  simp [connect_eventsub_ws, connectPoll_timeout 10 stream h]

/-- Witness for C10: the stream closes immediately after opening. -/
theorem stream_end_reported_as_timeout_witness :
    connect_eventsub_ws true ([] : List StreamItem) =
      (.error .handshakeTimeout, 10) ∧
      ConnectError.handshakeTimeout ≠ ConnectError.connectionError :=
  stream_end_reported_as_timeout [] (by simp) (by decide)

/-- C1 (amended): for every text frame whose `payload.subscription.type`
equals the subscribed event type and whose payload carries an "event"
object, the action handler is invoked exactly once for that frame, with
`user_name` taken from `payload.event.user_name` (defaulting to
"unknown user" when absent) and `reward_title` from
`payload.event.reward.title` (defaulting to "unknown reward" when
absent); when the payload has no "event" object the handler is not
invoked at all. -/
theorem eligible_frame_dispatches_once :
    ∀ (s : String) (event payload ev : Json) (rest : List StreamItem),
      parseJson s = some event →
      event.get kPayload = some payload →
      ((payload.get kSubscription).bind fun sub => sub.get kType).bind
          Json.asStr = some subscribedEventType →
      payload.get kEvent = some ev →
      runLoop (StreamItem.msg (WsMessage.text s) :: rest) =
        ({ user_name := ((ev.get kUserName).bind Json.asStr).getD kUnknownUser
           reward_title := (((ev.get kReward).bind fun r =>
             r.get kTitle).bind Json.asStr).getD kUnknownReward }
          :: (runLoop rest).1, (runLoop rest).2) := by
  intro s event payload ev rest hp hpl ht hev
  have hd : frameDispatch event =
      [{ user_name := ((ev.get kUserName).bind Json.asStr).getD kUnknownUser
         reward_title := (((ev.get kReward).bind fun r =>
           r.get kTitle).bind Json.asStr).getD kUnknownReward }] := by
    unfold frameDispatch
    simp only [hpl]
    rw [ht]
    simp [handle_redemption, hev]
  simp [runLoop, hp, hd]

set_option maxRecDepth 8000 in
/-- Witness for C1 at the section-8 notification frame: the frame with
event fields user_name "TestUser" and reward.title "CoolSound" dispatches
exactly that redemption event once. -/
theorem eligible_frame_dispatches_once_witness :
    runLoop [StreamItem.msg (WsMessage.text notifFrame)] =
      ([{ user_name := testUser, reward_title := coolSound }], none) := by
  have h := eligible_frame_dispatches_once notifFrame
    ((parseJson notifFrame).getD Json.null)
    ((((parseJson notifFrame).getD Json.null).get kPayload).getD Json.null)
    (((((parseJson notifFrame).getD Json.null).get kPayload).getD
      Json.null).get kEvent |>.getD Json.null)
    [] rfl rfl rfl rfl
  exact h.trans (by decide)

/-- Counterexample to C1 as stated: a text frame whose
`payload.subscription.type` equals the subscribed event type but whose
payload has no "event" object.  The claim requires the handler to be
invoked exactly once (with both defaults); the code spawns
`handle_redemption`, which finds no "event" and never calls the action
handler, so the frame produces zero invocations. -/
theorem eligible_frame_without_event_not_dispatched :
    subscriptionTypeOf ((parseJson noEventFrame).getD Json.null) =
      some subscribedEventType ∧
    (((parseJson noEventFrame).getD Json.null).get kPayload).bind
      (fun p => p.get kEvent) = none ∧
    runLoop [StreamItem.msg (WsMessage.text noEventFrame)] = ([], none) :=
  ⟨rfl, rfl, rfl⟩

/-- C2: a parsed text frame whose `payload.subscription.type` is absent or
differs from the subscribed event type dispatches nothing: the frame
contributes no handler invocation, and the whole loop behaves as if the
frame were not in the stream. -/
theorem non_matching_frame_never_dispatched :
    ∀ (pre : List StreamItem) (s : String) (rest : List StreamItem)
      (event : Json), parseJson s = some event →
      subscriptionTypeOf event ≠ some subscribedEventType →
      frameDispatch event = [] ∧
        runLoop (pre ++ StreamItem.msg (WsMessage.text s) :: rest) =
          runLoop (pre ++ rest) := by
  intro pre s rest event hp ht
  have hd := frameDispatch_of_ne event ht
  exact ⟨hd, runLoop_skip_frame pre s rest event hp hd⟩

/-- Witness for C2 at a frame of type "channel.follow". -/
theorem non_matching_frame_never_dispatched_witness :
    frameDispatch ((parseJson wrongTypeFrame).getD Json.null) = [] ∧
      runLoop ([] ++ StreamItem.msg (WsMessage.text wrongTypeFrame) ::
        ([] : List StreamItem)) = runLoop ([] ++ ([] : List StreamItem)) :=
  non_matching_frame_never_dispatched [] wrongTypeFrame []
    ((parseJson wrongTypeFrame).getD Json.null) rfl (by decide)

/-- C3: the dispatch loop returns success exactly when the stream ends
with every item clean (no read error, every text frame parseable); a
malformed text frame reached after clean items terminates the whole loop
with the parse error (no per-frame recovery); non-text frames are skipped
without error. -/
theorem loop_termination_behaviour :
    (∀ msgs : List StreamItem,
      (runLoop msgs).2 = none ↔ ∀ m ∈ msgs, cleanItem m = true)
    ∧ (∀ (pre : List StreamItem) (s : String) (rest : List StreamItem),
        (∀ m ∈ pre, cleanItem m = true) → parseJson s = none →
        (runLoop (pre ++ StreamItem.msg (WsMessage.text s) :: rest)).2 =
          some LoopError.parseError)
    ∧ (∀ rest : List StreamItem,
        runLoop (StreamItem.msg WsMessage.nonText :: rest) = runLoop rest) :=
  ⟨runLoop_snd_none_iff, runLoop_parse_error, fun _ => rfl⟩

/-- Witness for C3: a single malformed text frame yields the parse error. -/
theorem loop_termination_behaviour_witness :
    (runLoop ([] ++ StreamItem.msg (WsMessage.text malformedFrame) ::
      ([] : List StreamItem))).2 = some LoopError.parseError :=
  loop_termination_behaviour.2.1 [] malformedFrame [] (by simp) rfl

/-- C9 (amended): in every execution of the pipeline, a subscription
registration request is issued only after the handshake has produced a
session id — namely the very id the request's transport carries, which
the code never checks for non-emptiness — and the event dispatch loop
starts only after the registration call has returned success. -/
theorem pipeline_ordering :
    ∀ (login : String) (idRespOk : Bool) (idStatusText : String)
      (idBody : Except Unit Json) (openOk : Bool) (stream : List StreamItem)
      (regRespOk : Bool) (regRespBody : String),
      (∀ p : WsSubscriptionPayload,
        PAction.registerRequest p ∈ (run_eventsub_ws_service login idRespOk
          idStatusText idBody openOk stream regRespOk regRespBody).1 →
        List.Sublist [PAction.sessionObtained p.transport.session_id,
            PAction.registerRequest p]
          (run_eventsub_ws_service login idRespOk idStatusText idBody openOk
            stream regRespOk regRespBody).1)
      ∧ (PAction.loopStarted ∈ (run_eventsub_ws_service login idRespOk
          idStatusText idBody openOk stream regRespOk regRespBody).1 →
        List.Sublist [PAction.registerSucceeded, PAction.loopStarted]
          (run_eventsub_ws_service login idRespOk idStatusText idBody openOk
            stream regRespOk regRespBody).1) := by
  intro login idRespOk idStatusText idBody openOk stream regRespOk regRespBody
  cases h1 : get_numeric_broadcaster_id idRespOk idStatusText idBody with
  | error e => constructor <;> simp [run_eventsub_ws_service, h1]
  | ok nid =>
    cases h2 : (connect_eventsub_ws openOk stream).1 with
    | error e => constructor <;> simp [run_eventsub_ws_service, h1, h2]
    | ok conn =>
      cases regRespOk with
      | false =>
        constructor
        · intro p hp
          simp [run_eventsub_ws_service, h1, h2,
            register_ws_subscription] at hp ⊢
          subst hp
          exact List.Sublist.cons _ (List.Sublist.cons _ (List.Sublist.cons _
            (List.Sublist.cons₂ _ (List.Sublist.cons₂ _ List.Sublist.slnil))))
        · intro hl
          simp [run_eventsub_ws_service, h1, h2,
            register_ws_subscription] at hl
      | true =>
        constructor
        · intro p hp
          simp [run_eventsub_ws_service, h1, h2,
            register_ws_subscription] at hp ⊢
          subst hp
          exact List.Sublist.cons _ (List.Sublist.cons _ (List.Sublist.cons _
            (List.Sublist.cons₂ _ (List.Sublist.cons₂ _
              (List.nil_sublist _)))))
        · intro _
          simp [run_eventsub_ws_service, h1, h2, register_ws_subscription]
          exact List.Sublist.cons _ (List.Sublist.cons _ (List.Sublist.cons _
            (List.Sublist.cons _ (List.Sublist.cons _
              (List.Sublist.cons₂ _ (List.Sublist.cons₂ _
                List.Sublist.slnil))))))

set_option maxRecDepth 8000 in
/-- Witness for C9: a full successful run (broadcaster resolved, welcome
received, registration accepted) in which the loop start is preceded by
the registration success. -/
theorem pipeline_ordering_witness :
    List.Sublist [PAction.registerSucceeded, PAction.loopStarted]
      (run_eventsub_ws_service loginName true status200 (Except.ok idBody123)
        true [StreamItem.msg (WsMessage.text welcomeFrame)] true strEmpty).1 :=
  (pipeline_ordering loginName true status200 (Except.ok idBody123) true
    [StreamItem.msg (WsMessage.text welcomeFrame)] true strEmpty).2 (by decide)

set_option maxRecDepth 8000 in
/-- Counterexample to C9 as stated: a complete execution in which the
welcome frame carries the empty session id.  The handshake succeeds, and
the registration request is issued with session_id "" — i.e. before (and
without) any session with a non-empty id being obtained, because neither
`extract_session_id` nor `connect_eventsub_ws` checks non-emptiness. -/
theorem pipeline_registers_with_empty_session_id :
    (run_eventsub_ws_service loginName true status200 (Except.ok idBody123)
      true [StreamItem.msg (WsMessage.text emptyIdWelcomeFrame)] true
      strEmpty).1 =
    [PAction.lookupBroadcaster loginName,
      PAction.broadcasterResolved numericId123, PAction.wsConnect,
      PAction.sessionObtained strEmpty,
      PAction.registerRequest regPayloadEmptySid,
      PAction.registerSucceeded, PAction.loopStarted] := by decide
